import Mathlib

/-!
Shallow embedding of `pyznap/ssh.py` (the `SSH` class: `__init__`,
`setup_compress`, `close`, `__del__`).

The ambient Python runtime (filesystem, wall clock, subprocess execution and
the capability probe `pyznap.utils.exists`) is modelled by an environment
record `Env` of oracles; side effects (calls to `subprocess.check_output`)
are recorded in an explicit trace of `Effect`s.  Python attribute lookup on a
possibly half-initialised object is modelled by `SSHObject`, whose fields are
`Option`-valued: `none` means the attribute was never assigned, so reading it
raises `AttributeError`.
-/

namespace Pyznap

/-- Outcome of one `subprocess.check_output(cmd, timeout=...)` call:
either it returns normally, raises `subprocess.CalledProcessError` (carrying
the captured stderr), or raises `subprocess.TimeoutExpired` (whose string
rendering is the timeout description). -/
inductive ProbeOutcome where
  | ok : ProbeOutcome
  | calledProcessError (stderr : String) : ProbeOutcome
  | timeoutExpired (descr : String) : ProbeOutcome
deriving DecidableEq, Repr

/-- A recorded side effect: one `subprocess.check_output(cmd, timeout=t)`
invocation.  No other primitive in `ssh.py` touches the outside world. -/
inductive Effect where
  | checkOutput (cmd : List String) (timeout : Nat) : Effect
deriving DecidableEq, Repr

/-- Exceptions that the embedded code can raise. -/
inductive PyError where
  | fileNotFoundError (path : String) : PyError
  | sshException (cause : String) : PyError
  | attributeError (attr : String) : PyError
deriving DecidableEq, Repr

/-- The ambient runtime: `isfile` is `os.path.isfile`, `homeIdRsa` is
`os.path.expanduser('~/.ssh/id_rsa')`, `now` is
`datetime.now().strftime('%Y-%m-%d_%H:%M:%S')` at construction time, `run`
gives the outcome of `subprocess.check_output` on a command vector and a
timeout, and `existsLocal name` / `existsRemote name` are the results of the
capability probe `pyznap.utils.exists(name)` / `exists(name, ssh=self)`
(defined outside `ssh.py`; per the spec it returns a boolean and never
raises for a missing binary). -/
structure Env where
  isfile : String → Bool
  homeIdRsa : String
  now : String
  run : List String → Nat → ProbeOutcome
  existsLocal : String → Bool
  existsRemote : String → Bool

/-- A fully initialised `SSH` instance: fields mirror the attributes set by
`SSH.__init__` / `SSH.setup_compress` (`cmd` is `self.cmd`, `cmd_compress`
is `self.cmd_compress`). -/
structure SSH where
  user : String
  host : String
  port : Nat
  socket : String
  key : String
  cmd : List String
  compression : Option String
  cmd_compress : List String
deriving DecidableEq, Repr

/-- A Python object view of an `SSH` instance: each field is `some v` when
the attribute was assigned and `none` when it was never set (in which case
reading it raises `AttributeError`).  Needed because `__init__` can raise
midway, leaving an object that the finalizer `__del__` still runs on. -/
structure SSHObject where
  user : Option String
  host : Option String
  port : Option Nat
  socket : Option String
  key : Option String
  cmd : Option (List String)
  compression : Option (Option String)
  cmd_compress : Option (List String)
deriving DecidableEq, Repr

/-- View of a fully constructed instance as a Python object (every
attribute assigned). -/
def SSH.toObject (s : SSH) : SSHObject :=
  { user := some s.user, host := some s.host, port := some s.port,
    socket := some s.socket, key := some s.key, cmd := some s.cmd,
    compression := some s.compression, cmd_compress := some s.cmd_compress }

/-- Python `bytes.rstrip()` with no argument: drop trailing ASCII
whitespace (space, tab, newline, carriage return, vertical tab, form
feed).  Used on the captured stderr before it is put into `SSHException`. -/
def pyRstrip (s : String) : String :=
  ((s.data.reverse.dropWhile fun c =>
      c = ' ' ∨ c = '\t' ∨ c = '\n' ∨ c = '\x0d' ∨ c = '\x0b' ∨ c = '\x0c').reverse).asString

/-- The socket path built in `SSH.__init__`:
`'/tmp/pyznap_{:s}@{:s}:{:d}_{:s}'.format(user, host, port, timestamp)`. -/
def socketPath (user host : String) (port : Nat) (timestamp : String) : String :=
  "/tmp/pyznap_" ++ user ++ "@" ++ host ++ ":" ++ Nat.repr port ++ "_" ++ timestamp

/-- Resolution of the `key` argument: `self.key = key or
os.path.expanduser('~/.ssh/id_rsa')`.  Python `or` falls through on any
falsy value, so both `None` and the empty string resolve to the default
credential location. -/
def resolveKey (env : Env) (key : Option String) : String :=
  match key with
  | none => env.homeIdRsa
  | some k => if k = "" then env.homeIdRsa else k

/-- The `self.cmd` vector built in `SSH.__init__`. -/
def buildCmd (key socket : String) (port : Nat) (user host : String) : List String :=
  ["ssh", "-i", key, "-o", "ControlMaster=auto", "-o", "ControlPersist=1m",
   "-o", "ControlPath=" ++ socket, "-p", Nat.repr port, user ++ "@" ++ host]

/-- Abbreviation for the `self.cmd` a construction with these arguments
builds (key resolved, socket derived from the construction timestamp). -/
def initCmd (env : Env) (user host : String) (key : Option String) (port : Nat) : List String :=
  buildCmd (resolveKey env key) (socketPath user host port env.now) port user host

/-- The instance state right before `setup_compress` runs, in a
construction whose credential check and liveness probe both succeeded
(`compression`/`cmd_compress` hold placeholder values that
`setup_compress` overwrites unconditionally before anything reads them). -/
def preSession (env : Env) (user host : String) (key : Option String) (port : Nat) : SSH :=
  { user := user, host := host, port := port,
    socket := socketPath user host port env.now,
    key := resolveKey env key,
    cmd := initCmd env user host key port,
    compression := none,
    cmd_compress := initCmd env user host key port }

/-- Supported compression algorithm names (`algos` in `setup_compress`). -/
def algos : List String := ["gzip", "lzop", "bzip2", "pigz", "xz"]

/-- The `compress_cmd` dict in `setup_compress`, as an association list. -/
def compress_cmd : List (String × String) :=
  [("gzip", "gzip"), ("lzop", "lzop"), ("bzip2", "bzip2"), ("pigz", "pigz"), ("xz", "xz")]

/-- The `decompress_cmd` dict in `setup_compress`, as an association list. -/
def decompress_cmd : List (String × String) :=
  [("gzip", "gzip -d"), ("lzop", "lzop -d"), ("bzip2", "bzip2 -d"), ("pigz", "pigz -d"),
   ("xz", "xz -d")]

/-- Python dict lookup `d[k]`, as an `Option` (a missing key would raise
`KeyError`; in `setup_compress` lookups only happen after the membership
test on `algos`, so the `none` case is unreachable there). -/
def dictGet (d : List (String × String)) (k : String) : Option String :=
  (d.find? fun p => p.1 == k).map (fun p => p.2)

/-- `SSH.setup_compress(self, _type)`: unconditionally sets
`self.compression = None` and `self.cmd_compress = self.cmd`, then returns
early when `_type` is `None`, not in `algos`, or unavailable locally or
remotely; otherwise selects the algorithm and wraps `self.cmd` with the
compress/decompress fragments. -/
def SSH.setup_compress (env : Env) (ty : Option String) (s : SSH) : SSH :=
  let s := { s with compression := none, cmd_compress := s.cmd }
  match ty with
  | none => s
  | some t =>
    if ¬ t ∈ algos then s
    else if env.existsLocal t = false then s
    else if env.existsRemote t = false then s
    else
      match dictGet compress_cmd t, dictGet decompress_cmd t with
      | some c, some d =>
        { s with compression := some t,
                 cmd_compress := [c] ++ ["|"] ++ s.cmd ++ [d] ++ ["|"] }
      | _, _ => s

/-- `SSH.close(self)`: runs `self.cmd + ['-O', 'exit']` with a 5 second
timeout inside `try: ... except (CalledProcessError, TimeoutExpired):
pass`.  Reading `self.cmd` on an object that never assigned it raises
`AttributeError`, which the `except` clause does not catch. -/
def SSHObject.close (env : Env) (o : SSHObject) : Except PyError Unit × List Effect :=
  match o.cmd with
  | none => (Except.error (PyError.attributeError "cmd"), [])
  | some cmd =>
    let c := cmd ++ ["-O", "exit"]
    let r : Except PyError Unit :=
      match env.run c 5 with
      | ProbeOutcome.ok => Except.ok ()
      | ProbeOutcome.calledProcessError _ => Except.ok ()
      | ProbeOutcome.timeoutExpired _ => Except.ok ()
    (r, [Effect.checkOutput c 5])

/-- `SSH.close` invoked on a fully constructed instance. -/
def SSH.close (env : Env) (s : SSH) : Except PyError Unit × List Effect :=
  SSHObject.close env s.toObject

/-- `SSH.__del__(self)`: just calls `self.close()`. -/
def SSHObject.finalize (env : Env) (o : SSHObject) : Except PyError Unit × List Effect :=
  SSHObject.close env o

/-- Result of running `SSH.__init__`: the returned value or raised
exception, the attribute state of the object when `__init__` finished or
aborted, and the trace of subprocess invocations. -/
structure InitResult where
  result : Except PyError SSH
  obj : SSHObject
  effects : List Effect
deriving Repr

/-- `SSH.__init__(self, user, host, key, port, compress)`:
builds the socket path from the construction timestamp, resolves the key,
aborts with `FileNotFoundError` when the resolved key is not a file, builds
`self.cmd`, performs the liveness probe `self.cmd + ['ls']` with a 10
second timeout (closing the connection and raising `SSHException` on
failure), then negotiates compression via `setup_compress`. -/
def SSH.init (env : Env) (user host : String) (key : Option String) (port : Nat)
    (compress : Option String) : InitResult :=
  let socket := socketPath user host port env.now
  let k := resolveKey env key
  if env.isfile k then
    let cmd := buildCmd k socket port user host
    let probe := cmd ++ ["ls"]
    let failObj : SSHObject :=
      { user := some user, host := some host, port := some port, socket := some socket,
        key := some k, cmd := some cmd, compression := none, cmd_compress := none }
    match env.run probe 10 with
    | ProbeOutcome.ok =>
      let s0 : SSH :=
        { user := user, host := host, port := port, socket := socket, key := k, cmd := cmd,
          compression := none, cmd_compress := cmd }
      let s := SSH.setup_compress env compress s0
      { result := Except.ok s, obj := s.toObject, effects := [Effect.checkOutput probe 10] }
    | ProbeOutcome.calledProcessError stderr =>
      { result := Except.error (PyError.sshException (pyRstrip stderr)), obj := failObj,
        effects := Effect.checkOutput probe 10 :: (SSHObject.close env failObj).2 }
    | ProbeOutcome.timeoutExpired d =>
      { result := Except.error (PyError.sshException d), obj := failObj,
        effects := Effect.checkOutput probe 10 :: (SSHObject.close env failObj).2 }
  else
    { result := Except.error (PyError.fileNotFoundError k),
      obj := { user := some user, host := some host, port := some port, socket := some socket,
               key := some k, cmd := none, compression := none, cmd_compress := none },
      effects := [] }

/-- Decimal digit characters of a natural number, most significant first;
a structural companion to `Nat.repr` (see `repr_eq_natChars`). -/
def natChars (n : Nat) : List Char :=
  if h : n < 10 then [Nat.digitChar n]
  else natChars (n / 10) ++ [Nat.digitChar (n % 10)]
decreasing_by exact Nat.div_lt_self (by omega) (by omega)

/-- Syntactic validity of an endpoint: the user name contains no `@`, and
the host contains neither `@` nor `:` (an `ssh` target `user@host` with a
`-p` port cannot be formed otherwise). -/
def ValidEndpoint (user host : String) : Prop :=
  ¬ '@' ∈ user.data ∧ ¬ '@' ∈ host.data ∧ ¬ ':' ∈ host.data

/-- A fixed construction timestamp for concrete test runs. -/
def ts0 : String := "2026-10-12_10:30:00"

/-- Test environment: key file present, every subprocess call succeeds,
every compression binary available on both ends. -/
def envOk : Env :=
  { isfile := fun _ => true, homeIdRsa := "/root/.ssh/id_rsa", now := ts0,
    run := fun _ _ => ProbeOutcome.ok,
    existsLocal := fun _ => true, existsRemote := fun _ => true }

/-- Test environment: no path is a file. -/
def envNoKey : Env :=
  { isfile := fun _ => false, homeIdRsa := "/root/.ssh/id_rsa", now := ts0,
    run := fun _ _ => ProbeOutcome.ok,
    existsLocal := fun _ => true, existsRemote := fun _ => true }

/-- Test environment: key present, but any 10-second probe fails with
captured stderr; the 5-second close directive also fails (and must be
swallowed). -/
def envProbeErr : Env :=
  { isfile := fun _ => true, homeIdRsa := "/root/.ssh/id_rsa", now := ts0,
    run := fun _ t =>
      if t = 10 then ProbeOutcome.calledProcessError "Permission denied\n"
      else ProbeOutcome.timeoutExpired "Command timed out after 5 seconds",
    existsLocal := fun _ => true, existsRemote := fun _ => true }

/-- Test environment: key present, the liveness probe times out. -/
def envProbeTimeout : Env :=
  { isfile := fun _ => true, homeIdRsa := "/root/.ssh/id_rsa", now := ts0,
    run := fun _ t =>
      if t = 10 then ProbeOutcome.timeoutExpired "Command timed out after 10 seconds"
      else ProbeOutcome.ok,
    existsLocal := fun _ => true, existsRemote := fun _ => true }

/-- Test environment: key present, probes succeed, but no compression
binary exists remotely. -/
def envNoRemote : Env :=
  { isfile := fun _ => true, homeIdRsa := "/root/.ssh/id_rsa", now := ts0,
    run := fun _ _ => ProbeOutcome.ok,
    existsLocal := fun _ => true, existsRemote := fun _ => false }

/-- Test environment: key present, probes succeed, but no compression
binary exists locally. -/
def envNoLocal : Env :=
  { isfile := fun _ => true, homeIdRsa := "/root/.ssh/id_rsa", now := ts0,
    run := fun _ _ => ProbeOutcome.ok,
    existsLocal := fun _ => false, existsRemote := fun _ => true }

/-! Auxiliary lemmas: decimal representation and separator-based splitting
of the socket path. -/

theorem digitChar_inj_lt : ∀ a < 10, ∀ b < 10, Nat.digitChar a = Nat.digitChar b → a = b := by
  decide

theorem digitChar_isDigit : ∀ a < 10, (Nat.digitChar a).isDigit = true := by
  decide

theorem natChars_lt (n : Nat) (h : n < 10) : natChars n = [Nat.digitChar n] := by
  rw [natChars]
  simp [h]

theorem natChars_ge (n : Nat) (h : ¬ n < 10) :
    natChars n = natChars (n / 10) ++ [Nat.digitChar (n % 10)] := by
  rw [natChars]
  simp [h]

theorem natChars_ne_nil (n : Nat) : natChars n ≠ [] := by
  rw [natChars]
  split
  · simp
  · simp

theorem natChars_isDigit (n : Nat) : ∀ c ∈ natChars n, c.isDigit = true := by
  induction n using Nat.strong_induction_on with
  | _ n ih =>
    rw [natChars]
    split
    · intro c hc
      simp only [List.mem_singleton] at hc
      subst hc
      exact digitChar_isDigit n (by omega)
    · intro c hc
      rcases List.mem_append.mp hc with h | h
      · exact ih (n / 10) (Nat.div_lt_self (by omega) (by omega)) c h
      · simp only [List.mem_singleton] at h
        subst h
        exact digitChar_isDigit (n % 10) (Nat.mod_lt n (by omega))

theorem natChars_inj (m n : Nat) (h : natChars m = natChars n) : m = n := by
  induction m using Nat.strong_induction_on generalizing n with
  | _ m ih =>
    by_cases hm : m < 10 <;> by_cases hn : n < 10
    · rw [natChars_lt m hm, natChars_lt n hn] at h
      simp only [List.cons.injEq, and_true] at h
      exact digitChar_inj_lt m hm n hn h
    · exfalso
      rw [natChars_lt m hm, natChars_ge n hn] at h
      rcases List.exists_cons_of_ne_nil (natChars_ne_nil (n / 10)) with ⟨c, cs, hc⟩
      rw [hc] at h
      cases cs with
      | nil => simp at h
      | cons d ds => simp at h
    · exfalso
      rw [natChars_ge m hm, natChars_lt n hn] at h
      rcases List.exists_cons_of_ne_nil (natChars_ne_nil (m / 10)) with ⟨c, cs, hc⟩
      rw [hc] at h
      cases cs with
      | nil => simp at h
      | cons d ds => simp at h
    · rw [natChars_ge m hm, natChars_ge n hn] at h
      have hlen : ([Nat.digitChar (m % 10)] : List Char).length
          = ([Nat.digitChar (n % 10)] : List Char).length := rfl
      rcases List.append_inj' h hlen with ⟨h1, h2⟩
      have hdiv : m / 10 = n / 10 :=
        ih (m / 10) (Nat.div_lt_self (by omega) (by omega)) (n / 10) h1
      have hmod : m % 10 = n % 10 := by
        simp only [List.cons.injEq, and_true] at h2
        exact digitChar_inj_lt (m % 10) (Nat.mod_lt m (by omega)) (n % 10)
          (Nat.mod_lt n (by omega)) h2
      omega

theorem toDigitsCore_eq_natChars (f : Nat) : ∀ n acc, n < f →
    Nat.toDigitsCore 10 f n acc = natChars n ++ acc := by
  induction f with
  | zero => intro n acc h; omega
  | succ f ih =>
    intro n acc h
    rw [Nat.toDigitsCore]
    by_cases hdiv : n / 10 = 0
    · have hn : n < 10 := by omega
      have : n % 10 = n := Nat.mod_eq_of_lt hn
      simp only [hdiv, if_pos]
      rw [natChars, dif_pos hn, this]
      rfl
    · have hge : 10 ≤ n := by
        by_contra hlt
        exact hdiv (Nat.div_eq_of_lt (by omega))
      simp only [hdiv, if_neg, ite_false]
      rw [ih (n / 10) (Nat.digitChar (n % 10) :: acc) (by omega)]
      rw [natChars_ge n (by omega)]
      simp

theorem repr_eq_natChars (n : Nat) : Nat.repr n = (natChars n).asString := by
  rw [Nat.repr, Nat.toDigits, toDigitsCore_eq_natChars (n + 1) n [] (by omega)]
  simp

theorem repr_data_eq (n : Nat) : (Nat.repr n).data = natChars n := by
  rw [repr_eq_natChars]
  rfl

theorem append_sep_inj {sep : Char} : ∀ (a1 a2 b1 b2 : List Char),
    ¬ sep ∈ a1 → ¬ sep ∈ a2 → a1 ++ sep :: b1 = a2 ++ sep :: b2 →
    a1 = a2 ∧ b1 = b2 := by
  intro a1
  induction a1 with
  | nil =>
    intro a2 b1 b2 _ h2 h
    cases a2 with
    | nil => simpa using h
    | cons x xs =>
      exfalso
      simp only [List.nil_append, List.cons_append, List.cons.injEq] at h
      exact h2 (h.1 ▸ List.mem_cons_self x xs)
  | cons x xs ih =>
    intro a2 b1 b2 h1 h2 h
    cases a2 with
    | nil =>
      exfalso
      simp only [List.cons_append, List.nil_append, List.cons.injEq] at h
      exact h1 (h.1.symm ▸ List.mem_cons_self x xs)
    | cons y ys =>
      simp only [List.cons_append, List.cons.injEq] at h
      rcases h with ⟨hxy, hrest⟩
      have hx : ¬ sep ∈ xs := fun hm => h1 (List.mem_cons_of_mem x hm)
      have hy : ¬ sep ∈ ys := fun hm => h2 (List.mem_cons_of_mem y hm)
      rcases ih ys b1 b2 hx hy hrest with ⟨he, hb⟩
      exact ⟨by rw [hxy, he], hb⟩

theorem socketPath_data (u h : String) (p : Nat) (t : String) :
    (socketPath u h p t).data =
      "/tmp/pyznap_".data ++
        (u.data ++ '@' :: (h.data ++ ':' :: (natChars p ++ '_' :: t.data))) := by
  simp only [socketPath, String.data_append, repr_data_eq, List.append_assoc]
  rfl

theorem socketPath_inj (u1 h1 : String) (p1 : Nat) (t1 : String)
    (u2 h2 : String) (p2 : Nat) (t2 : String)
    (hv1 : ValidEndpoint u1 h1) (hv2 : ValidEndpoint u2 h2)
    (heq : socketPath u1 h1 p1 t1 = socketPath u2 h2 p2 t2) :
    u1 = u2 ∧ h1 = h2 ∧ p1 = p2 ∧ t1 = t2 := by
  have hd := congrArg String.data heq
  rw [socketPath_data, socketPath_data] at hd
  have hd2 := List.append_cancel_left hd
  rcases append_sep_inj u1.data u2.data _ _ hv1.1 hv2.1 hd2 with ⟨hu, hrest⟩
  rcases append_sep_inj h1.data h2.data _ _ hv1.2.2 hv2.2.2 hrest with ⟨hh, hrest2⟩
  have hp1 : ¬ '_' ∈ natChars p1 := by
    intro hm
    have := natChars_isDigit p1 '_' hm
    simp [Char.isDigit] at this
  have hp2 : ¬ '_' ∈ natChars p2 := by
    intro hm
    have := natChars_isDigit p2 '_' hm
    simp [Char.isDigit] at this
  rcases append_sep_inj (natChars p1) (natChars p2) _ _ hp1 hp2 hrest2 with ⟨hp, ht⟩
  exact ⟨String.ext hu, String.ext hh, natChars_inj p1 p2 hp, String.ext ht⟩

/-! Shape lemmas for `SSH.init`: the full result record in each of the
three constructor-level outcomes, and for each branch of
`setup_compress`. -/

theorem init_keyMissing_eq (env : Env) (u h : String) (key : Option String) (p : Nat)
    (c : Option String) (hf : env.isfile (resolveKey env key) = false) :
    SSH.init env u h key p c =
      { result := Except.error (PyError.fileNotFoundError (resolveKey env key)),
        obj := { user := some u, host := some h, port := some p,
                 socket := some (socketPath u h p env.now),
                 key := some (resolveKey env key), cmd := none,
                 compression := none, cmd_compress := none },
        effects := [] } := by
  simp [SSH.init, hf]

theorem init_run_ok (env : Env) (u h : String) (key : Option String) (p : Nat)
    (c : Option String) (hf : env.isfile (resolveKey env key) = true)
    (hr : env.run (initCmd env u h key p ++ ["ls"]) 10 = ProbeOutcome.ok) :
    SSH.init env u h key p c =
      { result := Except.ok (SSH.setup_compress env c (preSession env u h key p)),
        obj := (SSH.setup_compress env c (preSession env u h key p)).toObject,
        effects := [Effect.checkOutput (initCmd env u h key p ++ ["ls"]) 10] } := by
  have hr' : env.run
      (buildCmd (resolveKey env key) (socketPath u h p env.now) p u h ++ ["ls"]) 10
      = ProbeOutcome.ok := hr
  simp [SSH.init, initCmd, preSession, hf, hr']

theorem init_run_cpe (env : Env) (u h : String) (key : Option String) (p : Nat)
    (c : Option String) (stderr : String)
    (hf : env.isfile (resolveKey env key) = true)
    (hr : env.run (initCmd env u h key p ++ ["ls"]) 10
        = ProbeOutcome.calledProcessError stderr) :
    SSH.init env u h key p c =
      { result := Except.error (PyError.sshException (pyRstrip stderr)),
        obj := { user := some u, host := some h, port := some p,
                 socket := some (socketPath u h p env.now),
                 key := some (resolveKey env key), cmd := some (initCmd env u h key p),
                 compression := none, cmd_compress := none },
        effects := [Effect.checkOutput (initCmd env u h key p ++ ["ls"]) 10,
                    Effect.checkOutput (initCmd env u h key p ++ ["-O", "exit"]) 5] } := by
  have hr' : env.run
      (buildCmd (resolveKey env key) (socketPath u h p env.now) p u h ++ ["ls"]) 10
      = ProbeOutcome.calledProcessError stderr := hr
  simp [SSH.init, initCmd, SSHObject.close, hf, hr']

theorem init_run_timeout (env : Env) (u h : String) (key : Option String) (p : Nat)
    (c : Option String) (d : String)
    (hf : env.isfile (resolveKey env key) = true)
    (hr : env.run (initCmd env u h key p ++ ["ls"]) 10 = ProbeOutcome.timeoutExpired d) :
    SSH.init env u h key p c =
      { result := Except.error (PyError.sshException d),
        obj := { user := some u, host := some h, port := some p,
                 socket := some (socketPath u h p env.now),
                 key := some (resolveKey env key), cmd := some (initCmd env u h key p),
                 compression := none, cmd_compress := none },
        effects := [Effect.checkOutput (initCmd env u h key p ++ ["ls"]) 10,
                    Effect.checkOutput (initCmd env u h key p ++ ["-O", "exit"]) 5] } := by
  have hr' : env.run
      (buildCmd (resolveKey env key) (socketPath u h p env.now) p u h ++ ["ls"]) 10
      = ProbeOutcome.timeoutExpired d := hr
  simp [SSH.init, initCmd, SSHObject.close, hf, hr']

theorem setup_compress_none (env : Env) (s : SSH) :
    SSH.setup_compress env none s = { s with compression := none, cmd_compress := s.cmd } :=
  rfl

theorem setup_compress_unsupported (env : Env) (t : String) (s : SSH) (ht : ¬ t ∈ algos) :
    SSH.setup_compress env (some t) s
      = { s with compression := none, cmd_compress := s.cmd } := by
  simp [SSH.setup_compress, ht]

theorem setup_compress_noLocal (env : Env) (t : String) (s : SSH)
    (hl : env.existsLocal t = false) :
    SSH.setup_compress env (some t) s
      = { s with compression := none, cmd_compress := s.cmd } := by
  by_cases ht : t ∈ algos <;> simp [SSH.setup_compress, ht, hl]

theorem setup_compress_noRemote (env : Env) (t : String) (s : SSH)
    (hl : env.existsLocal t = true) (hm : env.existsRemote t = false) :
    SSH.setup_compress env (some t) s
      = { s with compression := none, cmd_compress := s.cmd } := by
  by_cases ht : t ∈ algos <;> simp [SSH.setup_compress, ht, hl, hm]

theorem setup_compress_selected (env : Env) (t : String) (s : SSH) (ht : t ∈ algos)
    (hl : env.existsLocal t = true) (hm : env.existsRemote t = true) :
    ∃ c, dictGet compress_cmd t = some c ∧ dictGet decompress_cmd t = some (c ++ " -d") ∧
      SSH.setup_compress env (some t) s =
        { s with compression := some t,
                 cmd_compress := [c] ++ ["|"] ++ s.cmd ++ [c ++ " -d"] ++ ["|"] } := by
  fin_cases ht <;>
    exact ⟨_, rfl, rfl, by simp [SSH.setup_compress, hl, hm, dictGet, compress_cmd,
      decompress_cmd, algos]⟩

theorem setup_compress_wraps (env : Env) (ty : Option String) (s : SSH) :
    ∃ pre post, pre ++ (SSH.setup_compress env ty s).cmd ++ post
      = (SSH.setup_compress env ty s).cmd_compress := by
  cases ty with
  | none => exact ⟨[], [], by simp [setup_compress_none]⟩
  | some t =>
    by_cases ht : t ∈ algos
    · by_cases hl : env.existsLocal t = true
      · by_cases hm : env.existsRemote t = true
        · rcases setup_compress_selected env t s ht hl hm with ⟨c, _, _, heq⟩
          exact ⟨[c, "|"], [c ++ " -d", "|"], by simp [heq]⟩
        · rw [setup_compress_noRemote env t s hl (by simpa using hm)]
          exact ⟨[], [], by simp⟩
      · rw [setup_compress_noLocal env t s (by simpa using hl)]
        exact ⟨[], [], by simp⟩
    · rw [setup_compress_unsupported env t s ht]
      exact ⟨[], [], by simp⟩

/-! The claims. -/

/-- C1: constructing a Session whose resolved key path is not an existing
regular file always fails with `FileNotFoundError` (the spec's
`CredentialNotFound`) carrying the resolved key path; no subprocess is run,
so no connection attempt is made and no control socket is created; and when
no key is provided, the key resolves to the default credential location
`~/.ssh/id_rsa` before this check. -/
theorem claim1_keyMissing_aborts (env : Env) (u h : String) (key : Option String)
    (p : Nat) (c : Option String)
    (hf : env.isfile (resolveKey env key) = false) :
    (SSH.init env u h key p c).result
        = Except.error (PyError.fileNotFoundError (resolveKey env key)) ∧
    (SSH.init env u h key p c).effects = [] ∧
    resolveKey env none = env.homeIdRsa := by
  rw [init_keyMissing_eq env u h key p c hf]
  exact ⟨rfl, rfl, rfl⟩

theorem claim1_witness :
    (SSH.init envNoKey "alice" "backup.example" (some "/tmp/nokey") 22 none).result
        = Except.error (PyError.fileNotFoundError "/tmp/nokey") ∧
    (SSH.init envNoKey "alice" "backup.example" (some "/tmp/nokey") 22 none).effects = [] ∧
    resolveKey envNoKey none = envNoKey.homeIdRsa :=
  claim1_keyMissing_aborts envNoKey "alice" "backup.example" (some "/tmp/nokey") 22 none rfl

/-- C2: whenever the resolved key file exists, construction performs the
liveness probe (`cmd + ['ls']` through the base command, timeout 10) as its
first subprocess call; on non-zero exit it closes the connection (the
close directive `cmd + ['-O', 'exit']` runs after the probe, before the
error surfaces) and fails with `SSHException` carrying the rstripped
captured stderr; on timeout it likewise closes and fails with
`SSHException` carrying the timeout description. -/
theorem claim2_probeFailure (env : Env) (u h : String) (key : Option String)
    (p : Nat) (c : Option String)
    (hf : env.isfile (resolveKey env key) = true) :
    ((SSH.init env u h key p c).effects.head?
        = some (Effect.checkOutput (initCmd env u h key p ++ ["ls"]) 10)) ∧
    (∀ stderr, env.run (initCmd env u h key p ++ ["ls"]) 10
          = ProbeOutcome.calledProcessError stderr →
        (SSH.init env u h key p c).result
            = Except.error (PyError.sshException (pyRstrip stderr)) ∧
        (SSH.init env u h key p c).effects
            = [Effect.checkOutput (initCmd env u h key p ++ ["ls"]) 10,
               Effect.checkOutput (initCmd env u h key p ++ ["-O", "exit"]) 5]) ∧
    (∀ d, env.run (initCmd env u h key p ++ ["ls"]) 10 = ProbeOutcome.timeoutExpired d →
        (SSH.init env u h key p c).result = Except.error (PyError.sshException d) ∧
        (SSH.init env u h key p c).effects
            = [Effect.checkOutput (initCmd env u h key p ++ ["ls"]) 10,
               Effect.checkOutput (initCmd env u h key p ++ ["-O", "exit"]) 5]) := by
  refine ⟨?_, ?_, ?_⟩
  · rcases hr : env.run (initCmd env u h key p ++ ["ls"]) 10 with _ | stderr | d
    · rw [init_run_ok env u h key p c hf hr]
      rfl
    · rw [init_run_cpe env u h key p c stderr hf hr]
      rfl
    · rw [init_run_timeout env u h key p c d hf hr]
      rfl
  · intro stderr hr
    rw [init_run_cpe env u h key p c stderr hf hr]
    exact ⟨rfl, rfl⟩
  · intro d hr
    rw [init_run_timeout env u h key p c d hf hr]
    exact ⟨rfl, rfl⟩

theorem claim2_witness :
    ((SSH.init envProbeErr "alice" "backup.example" (some "/tmp/validkey") 22 none).result
        = Except.error (PyError.sshException "Permission denied") ∧
     (SSH.init envProbeErr "alice" "backup.example" (some "/tmp/validkey") 22 none).effects
        = [Effect.checkOutput
             (initCmd envProbeErr "alice" "backup.example" (some "/tmp/validkey") 22
               ++ ["ls"]) 10,
           Effect.checkOutput
             (initCmd envProbeErr "alice" "backup.example" (some "/tmp/validkey") 22
               ++ ["-O", "exit"]) 5]) ∧
    ((SSH.init envProbeTimeout "alice" "backup.example" (some "/tmp/validkey") 22 none).result
        = Except.error (PyError.sshException "Command timed out after 10 seconds")) :=
  ⟨(claim2_probeFailure envProbeErr "alice" "backup.example" (some "/tmp/validkey") 22
      none rfl).2.1 "Permission denied\n" rfl,
   ((claim2_probeFailure envProbeTimeout "alice" "backup.example" (some "/tmp/validkey") 22
      none rfl).2.2 "Command timed out after 10 seconds" rfl).1⟩

/-- C3: for every requested algorithm in the supported set that is
available both locally and remotely (and a construction that passes the
credential check and liveness probe), the resulting session selects that
algorithm and sets `cmd_compress = [compressBinary] ++ ["|"] ++ cmd ++
[decompressBinary] ++ ["|"]`, where the decompress invocation is the
compress binary with ` -d` appended. -/
theorem claim3_compressionSelected (env : Env) (u h : String) (key : Option String)
    (p : Nat) (t : String)
    (hf : env.isfile (resolveKey env key) = true)
    (hr : env.run (initCmd env u h key p ++ ["ls"]) 10 = ProbeOutcome.ok)
    (ht : t ∈ algos) (hl : env.existsLocal t = true) (hm : env.existsRemote t = true) :
    ∃ s c, (SSH.init env u h key p (some t)).result = Except.ok s ∧
      dictGet compress_cmd t = some c ∧
      dictGet decompress_cmd t = some (c ++ " -d") ∧
      s.compression = some t ∧
      s.cmd_compress = [c] ++ ["|"] ++ s.cmd ++ [c ++ " -d"] ++ ["|"] := by
  rcases setup_compress_selected env t (preSession env u h key p) ht hl hm with ⟨c, hc, hd, heq⟩
  refine ⟨SSH.setup_compress env (some t) (preSession env u h key p), c, ?_, hc, hd, ?_, ?_⟩
  · rw [init_run_ok env u h key p (some t) hf hr]
  · rw [heq]
  · rw [heq]

theorem claim3_witness :
    ∃ s c, (SSH.init envOk "alice" "backup.example" (some "/tmp/validkey") 22
        (some "gzip")).result = Except.ok s ∧
      dictGet compress_cmd "gzip" = some c ∧
      dictGet decompress_cmd "gzip" = some (c ++ " -d") ∧
      s.compression = some "gzip" ∧
      s.cmd_compress = [c] ++ ["|"] ++ s.cmd ++ [c ++ " -d"] ++ ["|"] :=
  claim3_compressionSelected envOk "alice" "backup.example" (some "/tmp/validkey") 22
    "gzip" rfl rfl (by decide) rfl rfl

/-- C4: when the requested compression is none, an unsupported name, or a
supported algorithm unavailable locally or unavailable remotely,
construction (with the credential check and liveness probe passing) still
yields a usable session with `compression = none` and `cmd_compress` equal
to `cmd`; compression negotiation raises no fatal error. -/
theorem claim4_compressionSoftFail (env : Env) (u h : String) (key : Option String)
    (p : Nat)
    (hf : env.isfile (resolveKey env key) = true)
    (hr : env.run (initCmd env u h key p ++ ["ls"]) 10 = ProbeOutcome.ok) :
    (∃ s, (SSH.init env u h key p none).result = Except.ok s ∧
        s.compression = none ∧ s.cmd_compress = s.cmd) ∧
    (∀ t, ¬ t ∈ algos →
      ∃ s, (SSH.init env u h key p (some t)).result = Except.ok s ∧
        s.compression = none ∧ s.cmd_compress = s.cmd) ∧
    (∀ t, t ∈ algos → env.existsLocal t = false →
      ∃ s, (SSH.init env u h key p (some t)).result = Except.ok s ∧
        s.compression = none ∧ s.cmd_compress = s.cmd) ∧
    (∀ t, t ∈ algos → env.existsLocal t = true → env.existsRemote t = false →
      ∃ s, (SSH.init env u h key p (some t)).result = Except.ok s ∧
        s.compression = none ∧ s.cmd_compress = s.cmd) := by
  refine ⟨?_, ?_, ?_, ?_⟩
  · rw [init_run_ok env u h key p none hf hr]
    exact ⟨_, rfl, rfl, rfl⟩
  · intro t ht
    rw [init_run_ok env u h key p (some t) hf hr,
        setup_compress_unsupported env t (preSession env u h key p) ht]
    exact ⟨_, rfl, rfl, rfl⟩
  · intro t ht hl
    rw [init_run_ok env u h key p (some t) hf hr,
        setup_compress_noLocal env t (preSession env u h key p) hl]
    exact ⟨_, rfl, rfl, rfl⟩
  · intro t ht hl hm
    rw [init_run_ok env u h key p (some t) hf hr,
        setup_compress_noRemote env t (preSession env u h key p) hl hm]
    exact ⟨_, rfl, rfl, rfl⟩

theorem claim4_witness :
    (∃ s, (SSH.init envOk "alice" "backup.example" (some "/tmp/validkey") 22 none).result
        = Except.ok s ∧ s.compression = none ∧ s.cmd_compress = s.cmd) ∧
    (∃ s, (SSH.init envOk "alice" "backup.example" (some "/tmp/validkey") 22
        (some "zzz")).result = Except.ok s ∧ s.compression = none ∧ s.cmd_compress = s.cmd) ∧
    (∃ s, (SSH.init envNoLocal "alice" "backup.example" (some "/tmp/validkey") 22
        (some "gzip")).result = Except.ok s ∧ s.compression = none ∧ s.cmd_compress = s.cmd) ∧
    (∃ s, (SSH.init envNoRemote "alice" "backup.example" (some "/tmp/validkey") 22
        (some "gzip")).result = Except.ok s ∧ s.compression = none ∧ s.cmd_compress = s.cmd) :=
  ⟨(claim4_compressionSoftFail envOk "alice" "backup.example" (some "/tmp/validkey") 22
      rfl rfl).1,
   (claim4_compressionSoftFail envOk "alice" "backup.example" (some "/tmp/validkey") 22
      rfl rfl).2.1 "zzz" (by decide),
   (claim4_compressionSoftFail envNoLocal "alice" "backup.example" (some "/tmp/validkey") 22
      rfl rfl).2.2.1 "gzip" (by decide) rfl,
   (claim4_compressionSoftFail envNoRemote "alice" "backup.example" (some "/tmp/validkey") 22
      rfl rfl).2.2.2 "gzip" (by decide) rfl rfl⟩

/-- C5: for every successfully constructed session, `cmd_compress`
contains `cmd` as a contiguous subsequence (compression framing only
surrounds, never replaces, the transport invocation), whatever the outcome
of compression negotiation. -/
theorem claim5_pipelineWraps (env : Env) (u h : String) (key : Option String)
    (p : Nat) (c : Option String) (s : SSH)
    (hs : (SSH.init env u h key p c).result = Except.ok s) :
    ∃ pre post, pre ++ s.cmd ++ post = s.cmd_compress := by
  by_cases hf : env.isfile (resolveKey env key) = true
  · rcases hr : env.run (initCmd env u h key p ++ ["ls"]) 10 with _ | stderr | d
    · rw [init_run_ok env u h key p c hf hr] at hs
      obtain rfl : SSH.setup_compress env c (preSession env u h key p) = s :=
        Except.ok.inj hs
      exact setup_compress_wraps env c (preSession env u h key p)
    · rw [init_run_cpe env u h key p c stderr hf hr] at hs
      exact absurd hs (by simp)
    · rw [init_run_timeout env u h key p c d hf hr] at hs
      exact absurd hs (by simp)
  · rw [init_keyMissing_eq env u h key p c (by simpa using hf)] at hs
    exact absurd hs (by simp)

theorem claim5_witness :
    ∃ pre post,
      pre ++ (SSH.setup_compress envOk (some "gzip")
          (preSession envOk "alice" "backup.example" (some "/tmp/validkey") 22)).cmd ++ post
        = (SSH.setup_compress envOk (some "gzip")
            (preSession envOk "alice" "backup.example" (some "/tmp/validkey") 22)).cmd_compress :=
  claim5_pipelineWraps envOk "alice" "backup.example" (some "/tmp/validkey") 22 (some "gzip")
    (SSH.setup_compress envOk (some "gzip")
      (preSession envOk "alice" "backup.example" (some "/tmp/validkey") 22)) rfl

/-- C6: `close` sends the termination directive `cmd + ['-O', 'exit']`
(with a 5 second timeout) and never raises to the caller: whatever the
outcome of the subprocess call (success, non-zero exit, timeout), the
result is `ok`, so calling it twice or on a dropped connection is safe and
it behaves identically on every call (idempotent). -/
theorem claim6_close (env : Env) (s : SSH) :
    SSH.close env s
      = (Except.ok (), [Effect.checkOutput (s.cmd ++ ["-O", "exit"]) 5]) := by
  simp only [SSH.close, SSHObject.close, SSH.toObject]
  rcases hE : env.run (s.cmd ++ ["-O", "exit"]) 5 with _ | stderr | d <;> simp [hE]

/-- C7: for every successfully constructed session, `cmd` is exactly the
ordered token vector `[ssh, -i, <key>, -o, ControlMaster=auto, -o,
ControlPersist=1m, -o, ControlPath=<socket>, -p, <port>, user@host]`; in
particular it starts with the transport binary and ends with the
`user@host` target. -/
theorem claim7_baseCommand (env : Env) (u h : String) (key : Option String)
    (p : Nat) (c : Option String) (s : SSH)
    (hs : (SSH.init env u h key p c).result = Except.ok s) :
    s.cmd = ["ssh", "-i", resolveKey env key, "-o", "ControlMaster=auto", "-o",
             "ControlPersist=1m", "-o", "ControlPath=" ++ socketPath u h p env.now,
             "-p", Nat.repr p, u ++ "@" ++ h] ∧
    s.cmd.head? = some "ssh" ∧
    s.cmd.getLast? = some (u ++ "@" ++ h) := by
  by_cases hf : env.isfile (resolveKey env key) = true
  · rcases hr : env.run (initCmd env u h key p ++ ["ls"]) 10 with _ | stderr | d
    · rw [init_run_ok env u h key p c hf hr] at hs
      obtain rfl : SSH.setup_compress env c (preSession env u h key p) = s :=
        Except.ok.inj hs
      have hcmd : (SSH.setup_compress env c (preSession env u h key p)).cmd
          = initCmd env u h key p := by
        cases c with
        | none => rfl
        | some t =>
          by_cases ht : t ∈ algos
          · by_cases hl : env.existsLocal t = true
            · by_cases hm : env.existsRemote t = true
              · rcases setup_compress_selected env t (preSession env u h key p) ht hl hm
                  with ⟨cc, _, _, heq⟩
                rw [heq]
                rfl
              · rw [setup_compress_noRemote env t _ hl (by simpa using hm)]
                rfl
            · rw [setup_compress_noLocal env t _ (by simpa using hl)]
              rfl
          · rw [setup_compress_unsupported env t _ ht]
            rfl
      rw [hcmd]
      exact ⟨rfl, rfl, rfl⟩
    · rw [init_run_cpe env u h key p c stderr hf hr] at hs
      exact absurd hs (by simp)
    · rw [init_run_timeout env u h key p c d hf hr] at hs
      exact absurd hs (by simp)
  · rw [init_keyMissing_eq env u h key p c (by simpa using hf)] at hs
    exact absurd hs (by simp)

theorem claim7_witness :
    (SSH.setup_compress envOk (some "gzip")
        (preSession envOk "alice" "backup.example" (some "/tmp/validkey") 22)).cmd
      = ["ssh", "-i", "/tmp/validkey", "-o", "ControlMaster=auto", "-o",
         "ControlPersist=1m", "-o",
         "ControlPath=" ++ socketPath "alice" "backup.example" 22 envOk.now,
         "-p", Nat.repr 22, "alice" ++ "@" ++ "backup.example"] ∧
    (SSH.setup_compress envOk (some "gzip")
        (preSession envOk "alice" "backup.example" (some "/tmp/validkey") 22)).cmd.head?
      = some "ssh" ∧
    (SSH.setup_compress envOk (some "gzip")
        (preSession envOk "alice" "backup.example" (some "/tmp/validkey") 22)).cmd.getLast?
      = some ("alice" ++ "@" ++ "backup.example") :=
  claim7_baseCommand envOk "alice" "backup.example" (some "/tmp/validkey") 22 (some "gzip")
    (SSH.setup_compress envOk (some "gzip")
      (preSession envOk "alice" "backup.example" (some "/tmp/validkey") 22)) rfl

/-- C8: the socket path follows the format
`/tmp/pyznap_{user}@{host}:{port}_{timestamp}`, and for syntactically
valid endpoints (user without `@`, host without `@` or `:`) it is
injective in `(user, host, port, timestamp)`: it yields a distinct value
whenever the second-granularity timestamps differ, and never collides for
two sessions of the same process run to different endpoints. -/
theorem claim8_socketPath :
    (∀ u h p t, socketPath u h p t
        = "/tmp/pyznap_" ++ u ++ "@" ++ h ++ ":" ++ Nat.repr p ++ "_" ++ t) ∧
    (∀ u1 h1 p1 t1 u2 h2 p2 t2, ValidEndpoint u1 h1 → ValidEndpoint u2 h2 →
        socketPath u1 h1 p1 t1 = socketPath u2 h2 p2 t2 →
        u1 = u2 ∧ h1 = h2 ∧ p1 = p2 ∧ t1 = t2) :=
  ⟨fun _ _ _ _ => rfl, socketPath_inj⟩

theorem claim8_witness :
    ("alice" : String) = "alice" ∧ ("backup.example" : String) = "backup.example" ∧
    (22 : Nat) = 22 ∧ ts0 = ts0 :=
  claim8_socketPath.2 "alice" "backup.example" 22 ts0 "alice" "backup.example" 22 ts0
    (by exact ⟨by decide, by decide, by decide⟩)
    (by exact ⟨by decide, by decide, by decide⟩) rfl

/-- C9: compression negotiation never modifies the base command or the
endpoint identity: for every requested algorithm and every probe outcome,
`setup_compress` leaves `cmd`, `user`, `host`, `port`, `socket` and `key`
unchanged; only `compression` and `cmd_compress` are written. -/
theorem claim9_setupFrame (env : Env) (ty : Option String) (s : SSH) :
    (SSH.setup_compress env ty s).cmd = s.cmd ∧
    (SSH.setup_compress env ty s).user = s.user ∧
    (SSH.setup_compress env ty s).host = s.host ∧
    (SSH.setup_compress env ty s).port = s.port ∧
    (SSH.setup_compress env ty s).socket = s.socket ∧
    (SSH.setup_compress env ty s).key = s.key := by
  cases ty with
  | none => exact ⟨rfl, rfl, rfl, rfl, rfl, rfl⟩
  | some t =>
    by_cases ht : t ∈ algos
    · by_cases hl : env.existsLocal t = true
      · by_cases hm : env.existsRemote t = true
        · rcases setup_compress_selected env t s ht hl hm with ⟨cc, _, _, heq⟩
          rw [heq]
          exact ⟨rfl, rfl, rfl, rfl, rfl, rfl⟩
        · rw [setup_compress_noRemote env t s hl (by simpa using hm)]
          exact ⟨rfl, rfl, rfl, rfl, rfl, rfl⟩
      · rw [setup_compress_noLocal env t s (by simpa using hl)]
        exact ⟨rfl, rfl, rfl, rfl, rfl, rfl⟩
    · rw [setup_compress_unsupported env t s ht]
      exact ⟨rfl, rfl, rfl, rfl, rfl, rfl⟩

/-- C10: on an object whose constructor aborted at the credential check
(so `cmd` was never assigned), invoking `close` — directly or via the
`__del__` finalizer — raises `AttributeError` rather than being
suppressed: the `except` clause catches only the probe-process failures
(`CalledProcessError`, `TimeoutExpired`), not the unguarded attribute
access. -/
theorem claim10_closeOnAborted (env : Env) (u h : String) (key : Option String)
    (p : Nat) (c : Option String)
    (hf : env.isfile (resolveKey env key) = false) :
    SSHObject.close env (SSH.init env u h key p c).obj
        = (Except.error (PyError.attributeError "cmd"), []) ∧
    SSHObject.finalize env (SSH.init env u h key p c).obj
        = (Except.error (PyError.attributeError "cmd"), []) := by
  rw [init_keyMissing_eq env u h key p c hf]
  exact ⟨rfl, rfl⟩

theorem claim10_witness :
    SSHObject.close envNoKey
        (SSH.init envNoKey "alice" "backup.example" (some "/tmp/nokey") 22 none).obj
      = (Except.error (PyError.attributeError "cmd"), []) ∧
    SSHObject.finalize envNoKey
        (SSH.init envNoKey "alice" "backup.example" (some "/tmp/nokey") 22 none).obj
      = (Except.error (PyError.attributeError "cmd"), []) :=
  claim10_closeOnAborted envNoKey "alice" "backup.example" (some "/tmp/nokey") 22 none rfl

end Pyznap
